import Mathlib

/-
Shallow embedding of the agent-chat-gemini retrieval-augmented QA pipeline:
  core/rag_pipeline.py  (RAGPipeline: __init__, setup_for_pdf, ask, DEFAULT_RAG_CONFIG,
                         RAG_PROMPT_TEMPLATE, the LCEL chain)
  core/pdf_processor.py (load_and_chunk_pdf)
  core/llm_handler.py   (get_embeddings_model, get_llm)
  core/vector_store.py  (get_vector_store, add_documents_to_store)

Third-party calls (PyMuPDFLoader, RecursiveCharacterTextSplitter internals,
HuggingFaceEmbeddings, Chroma, ChatGoogleGenerativeAI, ChatOllama, retriever and
LLM runtime behavior) are modelled as environment parameters whose outcomes are
either a normal return or a raised exception.  The Python control flow of the
repository functions themselves is translated statement by statement.
-/

/-- Outcome of a Python call: a normal return, or a raised exception carrying
its message.  `exn` propagates unless the source has an enclosing handler. -/
inductive Outcome (α : Type) where
  | ok (a : α)
  | exn (msg : String)
deriving DecidableEq

/-- Python configuration values as they appear in `DEFAULT_RAG_CONFIG` and in
user-supplied config dicts: strings, ints, floats (kept as a num/den pair),
`None`, and nested dicts (association lists, keys unique in the source). -/
inductive ConfigVal where
  | vStr (s : String)
  | vInt (n : Int)
  | vFloat (num den : Int)
  | vNone
  | vDict (entries : List (String × ConfigVal))

/-- Python truthiness of a configuration value (`if not x`). -/
def pyTruthy : ConfigVal → Bool
  | ConfigVal.vStr s => !(s = "")
  | ConfigVal.vInt n => !(n = 0)
  | ConfigVal.vFloat num _ => !(num = 0)
  | ConfigVal.vNone => false
  | ConfigVal.vDict entries => !entries.isEmpty

/-- Python `==` between a configuration value and a string literal. -/
def ConfigVal.isStr : ConfigVal → String → Bool
  | ConfigVal.vStr s, t => s = t
  | _, _ => false

/-- Python `str(...)` of a configuration value, as used inside f-strings.
String values render verbatim (the only case the repository exercises). -/
def pyStr : ConfigVal → String
  | ConfigVal.vStr s => s
  | ConfigVal.vInt n => toString n
  | ConfigVal.vFloat num den => toString num ++ "/" ++ toString den
  | ConfigVal.vNone => "None"
  | ConfigVal.vDict _ => "dict"

/-- Dict lookup: first entry with the given key (keys are unique in Python dicts). -/
def dictLookup : List (String × ConfigVal) → String → Option ConfigVal
  | [], _ => none
  | (k, v) :: rest, key => if k = key then some v else dictLookup rest key

/-- Python `{**a, **b}`: keys of `a` in order with values overridden by `b`
where present, followed by the keys of `b` that are not in `a`. -/
def dictMerge (a b : List (String × ConfigVal)) : List (String × ConfigVal) :=
  (a.map fun p =>
    match dictLookup b p.1 with
    | some v => (p.1, v)
    | none => p)
  ++ b.filter fun p => (dictLookup a p.1).isNone

/-- Python `d[k]` on a dict: the value, or a raised `KeyError`. -/
def pyIndex (d : List (String × ConfigVal)) (k : String) : Outcome ConfigVal :=
  match dictLookup d k with
  | some v => Outcome.ok v
  | none => Outcome.exn ("KeyError: " ++ k)

/-- Python `v[k]` where `v` should be a dict value. -/
def pyIndexD (v : ConfigVal) (k : String) : Outcome ConfigVal :=
  match v with
  | ConfigVal.vDict d => pyIndex d k
  | _ => Outcome.exn ("TypeError: object is not subscriptable: " ++ k)

/-- Python `v.get(k, default)` where `v` should be a dict value. -/
def pyGet (v : ConfigVal) (k : String) (dflt : ConfigVal) : Outcome ConfigVal :=
  match v with
  | ConfigVal.vDict d => Outcome.ok ((dictLookup d k).getD dflt)
  | _ => Outcome.exn ("AttributeError: object has no attribute get: " ++ k)

/-- `DEFAULT_RAG_CONFIG` from core/rag_pipeline.py, verbatim (0.3 as 3/10). -/
def DEFAULT_RAG_CONFIG : List (String × ConfigVal) :=
  [("pdf_processor_config", ConfigVal.vDict
      [("chunk_size", ConfigVal.vInt 1000),
       ("chunk_overlap", ConfigVal.vInt 150)]),
   ("embedding_config", ConfigVal.vDict
      [("provider", ConfigVal.vStr "huggingface"),
       ("model_name", ConfigVal.vNone)]),
   ("vector_store_config", ConfigVal.vDict
      [("mode", ConfigVal.vStr "in_memory"),
       ("collection_name_prefix", ConfigVal.vStr "rag_collection_")]),
   ("llm_config", ConfigVal.vDict
      [("provider", ConfigVal.vStr "google"),
       ("model_name", ConfigVal.vStr "gemini-1.5-flash-latest"),
       ("temperature", ConfigVal.vFloat 3 10)]),
   ("retriever_config", ConfigVal.vDict
      [("search_type", ConfigVal.vStr "similarity"),
       ("search_kwargs", ConfigVal.vDict [("k", ConfigVal.vInt 10)])])]

/-- A LangChain Document chunk: only its text matters to the pipeline logic. -/
structure Chunk where
  page_content : String
deriving DecidableEq

/-- Handle to a constructed embeddings model object (opaque to the orchestrator). -/
structure EmbModel where
  id : Nat
deriving DecidableEq

/-- Handle to a constructed retriever object (opaque to the orchestrator). -/
structure Retr where
  id : Nat
deriving DecidableEq

/-- Handle to a constructed LLM client object (opaque to the orchestrator). -/
structure LLM where
  id : Nat
deriving DecidableEq

/-- A `langchain_chroma.Chroma` object: a handle to one named collection.  The
documents themselves live in the process-wide chromadb system (`ChromaSystem`):
all non-persistent clients are keyed to the single shared "ephemeral" system,
so two handles with the same collection name see the same documents. -/
structure VDB where
  collection : String
deriving DecidableEq

/-- The process-wide ephemeral chromadb system shared by every non-persistent
client: collection name → stored documents, in insertion order. -/
abbrev ChromaSystem := List (String × List Chunk)

/-- Documents currently stored under a collection name in the shared system. -/
def sysLookup : ChromaSystem → String → Option (List Chunk)
  | [], _ => none
  | (n, ds) :: rest, cn => if n = cn then some ds else sysLookup rest cn

/-- `collection.add(...)`: append documents to the named collection (the
pipeline only calls this on a collection the constructor just attached to). -/
def sysAppend : ChromaSystem → String → List Chunk → ChromaSystem
  | [], _, _ => []
  | (n, ds) :: rest, cn, docs =>
    if n = cn then (n, ds ++ docs) :: rest else (n, ds) :: sysAppend rest cn docs

/-- The runtime behavior of the constructed LCEL chain: the retriever step
(question to retrieved chunk texts, in retrieval rank order) and the
LLM step composed with StrOutputParser (prompt to output text). -/
structure Chain where
  retrieve : String → Outcome (List String)
  llm : String → Outcome String

/-- Environment for load_and_chunk_pdf: the outcome of `PyMuPDFLoader(...).load()`
(list of page texts, or a raise) and of `split_documents` on those pages. -/
structure PdfEnv where
  loadResult : Outcome (List String)
  splitResult : List String → Outcome (List Chunk)

/-- Environment of third-party outcomes for one setup_for_pdf run. -/
structure SetupEnv where
  pdfEnv : PdfEnv
  /-- `HuggingFaceEmbeddings(model_name=...)` construction, given the model name. -/
  hfEmbed : ConfigVal → Outcome EmbModel
  /-- In-memory `Chroma(...)` construction. -/
  chromaCtor : Outcome Unit
  /-- `vector_store.add_documents(documents)` (embeds via the provider). -/
  addDocuments : Outcome Unit
  /-- `vector_db.as_retriever(...)`. -/
  asRetriever : Outcome Retr
  /-- `os.getenv("GOOGLE_API_KEY")`. -/
  googleApiKey : Option String
  /-- `ChatGoogleGenerativeAI(model=..., temperature=...)` construction. -/
  googleLLM : ConfigVal → ConfigVal → Outcome LLM
  /-- `ChatOllama(model=..., temperature=...)` construction. -/
  ollamaLLM : ConfigVal → ConfigVal → Outcome LLM
  /-- Runtime retrieval behavior of the chain built in step 7. -/
  chainRetrieve : String → Outcome (List String)
  /-- Runtime LLM behavior (with StrOutputParser) of the chain built in step 7. -/
  chainLLM : String → Outcome String

/-- The mutable fields of a RAGPipeline instance. -/
structure RAGState where
  config : List (String × ConfigVal)
  embeddings_model : Option EmbModel
  vector_db : Option VDB
  llm : Option LLM
  rag_chain : Option Chain
  retriever : Option Retr

/-- `RAGPipeline.__init__`: `self.config = {**DEFAULT_RAG_CONFIG, **(config if config else {})}`,
all session fields start as `None`. -/
def RAGPipeline_init (config : Option (List (String × ConfigVal))) : RAGState :=
  { config := dictMerge DEFAULT_RAG_CONFIG (config.getD [])
    embeddings_model := none
    vector_db := none
    llm := none
    rag_chain := none
    retriever := none }

/-- `os.path.basename`: the component after the last path separator
(computed structurally: the longest separator-free suffix). -/
def os_path_basename (p : String) : String :=
  String.mk ((p.toList.reverse.takeWhile fun c => !(c = '/')).reverse)

/-- Index of the last dot in a character list. -/
def lastDotIdxAux : List Char → Nat → Option Nat → Option Nat
  | [], _, acc => acc
  | c :: cs, i, acc => lastDotIdxAux cs (i + 1) (if c = '.' then some i else acc)

/-- Index of the last dot in a character list. -/
def lastDotIdx (cs : List Char) : Option Nat :=
  lastDotIdxAux cs 0 none

/-- `os.path.splitext(...)[0]` on a basename: strip the extension starting at the
last dot, unless every character before that dot is a dot (e.g. ".bashrc"). -/
def splitext_root (name : String) : String :=
  let cs := name.toList
  match lastDotIdx cs with
  | none => name
  | some i =>
    if (cs.take i).all (fun c => c = '.') then name else String.mk (cs.take i)

/-- `"".join(c if c.isalnum() else "_" for c in name)` from setup_for_pdf. -/
def sanitize_name (s : String) : String :=
  String.mk (s.toList.map fun c => if c.isAlphanum then c else '_')

/-- ValueError message from get_embeddings_model for an unknown provider. -/
def msgEmbDesconhecido (p : String) : String :=
  "ValueError: Provedor de embedding desconhecido: " ++ p

/-- ValueError message from get_llm for an unknown provider. -/
def msgLLMDesconhecido (p : String) : String :=
  "ValueError: Provedor de LLM desconhecido: " ++ p

/-- ValueError message from get_llm when GOOGLE_API_KEY is absent. -/
def msgSemChaveGoogle : String :=
  "ValueError: Chave de API do Google (GOOGLE_API_KEY) não encontrada no arquivo .env"

/-- AttributeError raised by the persistent branch of setup_for_pdf: the method
`_get_pdf_specific_persist_directory_path` it calls is not defined on RAGPipeline
(the defined method is `_get_pdf_specific_persist_directory`). -/
def msgAttrPersistDir : String :=
  "AttributeError: RAGPipeline object has no attribute _get_pdf_specific_persist_directory_path"

/-- NameError raised in get_vector_store: core/vector_store.py has no
module-level `import os`, and the persistent branch evaluates `os.path.exists`. -/
def msgNameErrorOs : String :=
  "NameError: name os is not defined"

/-- Best-effort string returned by ask when invoking the chain raises. -/
def msgApology : String :=
  "Ocorreu um erro ao processar sua pergunta."

/-- String returned by ask for an empty question. -/
def msgPerguntaVazia : String :=
  "Por favor, forneça uma pergunta."

/-- `TextSplitter.__init__` (third-party): raises ValueError iff the overlap is
strictly larger than the chunk size; any other values are accepted. -/
def splitter_init (chunk_size chunk_overlap : Int) : Outcome Unit :=
  if chunk_overlap > chunk_size then
    Outcome.exn "ValueError: Got a larger chunk overlap than chunk size"
  else Outcome.ok ()

/-- `load_and_chunk_pdf(pdf_file_path, chunk_size=1000, chunk_overlap=100)` from
core/pdf_processor.py.  The whole body sits in a `try` whose handler catches
every exception and returns `[]`; inside, an empty `documents` list also
returns `[]` before the splitter is even constructed. -/
def load_and_chunk_pdf (env : PdfEnv) (chunk_size chunk_overlap : Int) : List Chunk :=
  match env.loadResult with
  | Outcome.exn _ => []
  | Outcome.ok documents =>
    if documents.isEmpty then []
    else
      match splitter_init chunk_size chunk_overlap with
      | Outcome.exn _ => []
      | Outcome.ok _ =>
        match env.splitResult documents with
        | Outcome.exn _ => []
        | Outcome.ok chunks => chunks

/-- `get_embeddings_model(provider, model_name)` from core/llm_handler.py:
only "huggingface" is implemented; any other provider raises ValueError. -/
def get_embeddings_model (provider model_name : ConfigVal) (env : SetupEnv) :
    Outcome EmbModel :=
  if provider.isStr "huggingface" then
    let hf_model_name :=
      if pyTruthy model_name then model_name else ConfigVal.vStr "all-MiniLM-L6-v2"
    env.hfEmbed hf_model_name
  else Outcome.exn (msgEmbDesconhecido (pyStr provider))

/-- `get_llm(provider, model_name, temperature)` from core/llm_handler.py:
"google" requires a truthy GOOGLE_API_KEY (else ValueError), "ollama" needs no
key, any other provider raises ValueError. -/
def get_llm (provider model_name temperature : ConfigVal) (env : SetupEnv) :
    Outcome LLM :=
  if provider.isStr "google" then
    match env.googleApiKey with
    | none => Outcome.exn msgSemChaveGoogle
    | some key =>
      if key = "" then Outcome.exn msgSemChaveGoogle
      else
        let llm_model_name :=
          if pyTruthy model_name then model_name
          else ConfigVal.vStr "gemini-1.5-flash-latest"
        env.googleLLM llm_model_name temperature
  else if provider.isStr "ollama" then
    let llm_model_name :=
      if pyTruthy model_name then model_name else ConfigVal.vStr "llama3.2"
    env.ollamaLLM llm_model_name temperature
  else Outcome.exn (msgLLMDesconhecido (pyStr provider))

/-- `get_vector_store(embeddings_model, collection_name, persist_directory)` from
core/vector_store.py.  With a non-None persist_directory the function evaluates
`os.path.exists(persist_directory)`, but the module never imports `os` at module
level (the only `import os` sits inside the `__main__` block), so every such
call raises NameError before any directory handling; the OSError fallback to
in-memory mode is unreachable.  With persist_directory None the `Chroma(...)`
constructor attaches a client to the single shared per-process ephemeral
chromadb system and does get_or_create_collection(collection_name): it
reattaches to an existing same-name collection (documents intact) and only
creates an empty one when the name is absent.  Returns the handle outcome and
the (possibly extended) shared system. -/
def get_vector_store (embeddings_model : EmbModel) (collection_name : String)
    (persist_directory : Option String) (env : SetupEnv) (chroma : ChromaSystem) :
    Outcome VDB × ChromaSystem :=
  match persist_directory with
  | some _ => (Outcome.exn msgNameErrorOs, chroma)
  | none =>
    match env.chromaCtor with
    | Outcome.exn m => (Outcome.exn m, chroma)
    | Outcome.ok _ =>
      (Outcome.ok { collection := collection_name },
       match sysLookup chroma collection_name with
       | some _ => chroma
       | none => chroma ++ [(collection_name, [])])

/-- `add_documents_to_store(vector_store, documents, is_persistent)` from
core/vector_store.py: returns immediately when `documents` is empty, otherwise
calls `vector_store.add_documents(documents)`, which appends the documents to
the handle's collection in the shared system (it never removes or replaces
existing entries). -/
def add_documents_to_store (vector_store : VDB) (documents : List Chunk)
    (is_persistent : Bool) (env : SetupEnv) (chroma : ChromaSystem) :
    Outcome Unit × ChromaSystem :=
  if documents.isEmpty then (Outcome.ok (), chroma)
  else
    match env.addDocuments with
    | Outcome.exn m => (Outcome.exn m, chroma)
    | Outcome.ok _ =>
      (Outcome.ok (), sysAppend chroma vector_store.collection documents)

/-- Text of RAG_PROMPT_TEMPLATE before the context slot. -/
def ragTemplateParte1 : String :=
  "\nVocê é um assistente de IA especializado em responder perguntas com base em um contexto fornecido.\nUse APENAS as seguintes informações de contexto para responder à pergunta.\nSe a resposta não estiver contida no contexto, diga educadamente que você não encontrou a informação no documento.\nNÃO invente respostas nem use conhecimento externo. Seja conciso e direto.\n\nContexto:\n"

/-- Text of RAG_PROMPT_TEMPLATE between the context and question slots. -/
def ragTemplateParte2 : String := "\n\nPergunta:\n"

/-- Text of RAG_PROMPT_TEMPLATE after the question slot. -/
def ragTemplateParte3 : String := "\n\nResposta útil:\n"

/-- `RAG_PROMPT_TEMPLATE` from core/rag_pipeline.py, with its two named slots. -/
def RAG_PROMPT_TEMPLATE : String :=
  ragTemplateParte1 ++ "{context}" ++ ragTemplateParte2 ++ "{question}" ++ ragTemplateParte3

/-- `PromptTemplate.format(context=..., question=...)`: simultaneous substitution
of the two slots of RAG_PROMPT_TEMPLATE. -/
def promptFormat (context question : String) : String :=
  ragTemplateParte1 ++ context ++ ragTemplateParte2 ++ question ++ ragTemplateParte3

/-- `format_docs(docs)` from setup_for_pdf step 7:
`"\n\n".join(doc.page_content for doc in docs)`, in the order the retriever
returned the documents (retrieval rank order). -/
def format_docs (docs : List String) : String :=
  String.intercalate "\n\n" docs

/-- Result of invoking the LCEL chain, with the provider calls it made. -/
structure InvokeResult where
  output : Outcome String
  retriever_calls : List String
  llm_calls : List String

/-- `rag_chain.invoke(question)`: RunnableParallel feeds the question to the
retriever branch (then format_docs) and passes it through unchanged; the prompt
is filled with both; the LLM output goes through StrOutputParser. -/
def chain_invoke (c : Chain) (question : String) : InvokeResult :=
  match c.retrieve question with
  | Outcome.exn m =>
    { output := Outcome.exn m, retriever_calls := [question], llm_calls := [] }
  | Outcome.ok docs =>
    let context := format_docs docs
    let prompt := promptFormat context question
    { output := c.llm prompt, retriever_calls := [question], llm_calls := [prompt] }

/-- Result of `RAGPipeline.ask`: the (unmodified) pipeline state, the returned
value (`none` models Python `None`), and the provider calls made. -/
structure AskResult where
  state : RAGState
  answer : Option String
  retriever_calls : List String
  llm_calls : List String

/-- `RAGPipeline.ask(question)` from core/rag_pipeline.py: returns None when no
chain is configured; returns a fixed string for an empty question; otherwise
invokes the chain inside a try/except that converts any exception into the
apology string.  The method assigns no attribute, so the state is returned
unchanged in every branch. -/
def ask (self : RAGState) (question : String) : AskResult :=
  match self.rag_chain with
  | none => { state := self, answer := none, retriever_calls := [], llm_calls := [] }
  | some chain =>
    if question = "" then
      { state := self, answer := some msgPerguntaVazia
        retriever_calls := [], llm_calls := [] }
    else
      let r := chain_invoke chain question
      match r.output with
      | Outcome.ok response =>
        { state := self, answer := some response
          retriever_calls := r.retriever_calls, llm_calls := r.llm_calls }
      | Outcome.exn _ =>
        { state := self, answer := some msgApology
          retriever_calls := r.retriever_calls, llm_calls := r.llm_calls }

/-- Result of `RAGPipeline.setup_for_pdf`: the updated pipeline state, the
shared per-process chromadb system after the call, and the returned boolean or
the exception that escaped (the method has no try/except). -/
structure SetupResult where
  state : RAGState
  system : ChromaSystem
  result : Outcome Bool

/-- `RAGPipeline.setup_for_pdf(pdf_file_path)` from core/rag_pipeline.py,
statement by statement.  Steps: (1) chunk the PDF with the chunker defaults
(1000/100; the config section pdf_processor_config is never read here) and on
an empty chunk list set `rag_chain = None` and return False; (2) load the
embeddings model; (3) pick the vector-store mode — the persistent branch calls
the undefined method `_get_pdf_specific_persist_directory_path` and so raises
AttributeError — compute the sanitized collection name, build the store and add
the chunks; (4) build the retriever; (5) load the LLM; (6)-(7) build the prompt
and the chain.  Each `self.<field> = ...` assignment lands exactly when the
corresponding call returns, so an exception in a later step keeps every earlier
assignment and leaves all untouched fields (including a stale `rag_chain`) as
they were.  The shared chromadb system (`chroma`) is threaded through: it
changes only at the Chroma construction (collection created when absent) and
at the document insertion (append to the collection). -/
def setup_for_pdf (self : RAGState) (pdf_file_path : String) (env : SetupEnv)
    (chroma : ChromaSystem) : SetupResult :=
  let chunks := load_and_chunk_pdf env.pdfEnv 1000 100
  if chunks.isEmpty then
    { state := { self with rag_chain := none }, system := chroma
      result := Outcome.ok false }
  else
    match pyIndex self.config "embedding_config" with
    | Outcome.exn m => { state := self, system := chroma, result := Outcome.exn m }
    | Outcome.ok emb_conf =>
    match pyGet emb_conf "provider" (ConfigVal.vStr "huggingface") with
    | Outcome.exn m => { state := self, system := chroma, result := Outcome.exn m }
    | Outcome.ok embProvider =>
    match pyGet emb_conf "model_name" ConfigVal.vNone with
    | Outcome.exn m => { state := self, system := chroma, result := Outcome.exn m }
    | Outcome.ok embModelName =>
    match get_embeddings_model embProvider embModelName env with
    | Outcome.exn m => { state := self, system := chroma, result := Outcome.exn m }
    | Outcome.ok emb =>
    let self := { self with embeddings_model := some emb }
    match pyIndex self.config "vector_store_config" with
    | Outcome.exn m => { state := self, system := chroma, result := Outcome.exn m }
    | Outcome.ok vs_conf =>
    match pyGet vs_conf "mode" (ConfigVal.vStr "in_memory") with
    | Outcome.exn m => { state := self, system := chroma, result := Outcome.exn m }
    | Outcome.ok vs_mode =>
    if vs_mode.isStr "persistent" then
      { state := self, system := chroma, result := Outcome.exn msgAttrPersistDir }
    else
      match pyIndexD vs_conf "collection_name_prefix" with
      | Outcome.exn m => { state := self, system := chroma, result := Outcome.exn m }
      | Outcome.ok collPre =>
      let pdf_filename_safe :=
        sanitize_name (splitext_root (os_path_basename pdf_file_path))
      let collection_name := pyStr collPre ++ pdf_filename_safe
      match get_vector_store emb collection_name none env chroma with
      | (Outcome.exn m, chroma2) =>
        { state := self, system := chroma2, result := Outcome.exn m }
      | (Outcome.ok vdb, chroma2) =>
      let self := { self with vector_db := some vdb }
      match add_documents_to_store vdb chunks false env chroma2 with
      | (Outcome.exn m, chroma3) =>
        { state := self, system := chroma3, result := Outcome.exn m }
      | (Outcome.ok _, chroma3) =>
      match pyIndex self.config "retriever_config" with
      | Outcome.exn m => { state := self, system := chroma3, result := Outcome.exn m }
      | Outcome.ok retr_conf =>
      match pyIndexD retr_conf "search_type" with
      | Outcome.exn m => { state := self, system := chroma3, result := Outcome.exn m }
      | Outcome.ok _search_type =>
      match pyIndexD retr_conf "search_kwargs" with
      | Outcome.exn m => { state := self, system := chroma3, result := Outcome.exn m }
      | Outcome.ok _search_kwargs =>
      match env.asRetriever with
      | Outcome.exn m => { state := self, system := chroma3, result := Outcome.exn m }
      | Outcome.ok r =>
      let self := { self with retriever := some r }
      match pyIndex self.config "llm_config" with
      | Outcome.exn m => { state := self, system := chroma3, result := Outcome.exn m }
      | Outcome.ok llm_conf =>
      match pyIndexD llm_conf "provider" with
      | Outcome.exn m => { state := self, system := chroma3, result := Outcome.exn m }
      | Outcome.ok llmProvider =>
      match pyIndexD llm_conf "model_name" with
      | Outcome.exn m => { state := self, system := chroma3, result := Outcome.exn m }
      | Outcome.ok llmModelName =>
      match pyIndexD llm_conf "temperature" with
      | Outcome.exn m => { state := self, system := chroma3, result := Outcome.exn m }
      | Outcome.ok llmTemp =>
      match get_llm llmProvider llmModelName llmTemp env with
      | Outcome.exn m => { state := self, system := chroma3, result := Outcome.exn m }
      | Outcome.ok l =>
      let self := { self with llm := some l }
      let self :=
        { self with
          rag_chain := some { retrieve := env.chainRetrieve, llm := env.chainLLM } }
      { state := self, system := chroma3, result := Outcome.ok true }

/-- Example chunk produced by the splitter on the example PDF text. -/
def chunkExemplo : Chunk := { page_content := "texto do pdf" }

/-- Chunker environment: the loader extracts one page of text and the splitter
produces one chunk from it. -/
def pdfEnvOk : PdfEnv :=
  { loadResult := Outcome.ok ["texto do pdf"]
    splitResult := fun _ => Outcome.ok [chunkExemplo] }

/-- Chunker environment: the loader finds no extractable text (empty document list). -/
def pdfEnvSemTexto : PdfEnv :=
  { loadResult := Outcome.ok []
    splitResult := fun _ => Outcome.ok [] }

/-- Setup environment in which every third-party call succeeds. -/
def envOk : SetupEnv :=
  { pdfEnv := pdfEnvOk
    hfEmbed := fun _ => Outcome.ok { id := 1 }
    chromaCtor := Outcome.ok ()
    addDocuments := Outcome.ok ()
    asRetriever := Outcome.ok { id := 2 }
    googleApiKey := some "chave"
    googleLLM := fun _ _ => Outcome.ok { id := 3 }
    ollamaLLM := fun _ _ => Outcome.ok { id := 4 }
    chainRetrieve := fun _ => Outcome.ok ["texto do pdf"]
    chainLLM := fun _ => Outcome.ok "resposta" }

/-- envOk, except that GOOGLE_API_KEY is not set in the environment. -/
def envSemChave : SetupEnv := { envOk with googleApiKey := none }

/-- envOk, except that the PDF yields no extractable text. -/
def envSemTexto : SetupEnv := { envOk with pdfEnv := pdfEnvSemTexto }

/-- Chain left behind by an earlier successful setup_for_pdf. -/
def chainAntiga : Chain :=
  { retrieve := fun _ => Outcome.ok ["antigo"]
    llm := fun _ => Outcome.ok "resposta antiga" }

/-- Shared chromadb system left behind by an earlier successful session. -/
def sysAntigo : ChromaSystem :=
  [("rag_collection_antigo", [{ page_content := "antigo" }])]

/-- Pipeline state after a successful earlier session (default config). -/
def stSessaoAnterior : RAGState :=
  { config := DEFAULT_RAG_CONFIG
    embeddings_model := some { id := 10 }
    vector_db := some { collection := "rag_collection_antigo" }
    llm := some { id := 11 }
    rag_chain := some chainAntiga
    retriever := some { id := 12 } }

/-- Freshly constructed pipeline with the default configuration. -/
def stDefault : RAGState := RAGPipeline_init none

/-- Pipeline constructed with an embedding provider that get_embeddings_model
does not implement. -/
def stEmbDesconhecido : RAGState :=
  RAGPipeline_init (some
    [("embedding_config", ConfigVal.vDict [("provider", ConfigVal.vStr "openai")])])

/-- Pipeline constructed with the persistent vector-store mode. -/
def stModoPersistente : RAGState :=
  RAGPipeline_init (some
    [("vector_store_config", ConfigVal.vDict [("mode", ConfigVal.vStr "persistent")])])

/-- Ready chain whose LLM call raises at answer time. -/
def chainFalha : Chain :=
  { retrieve := fun _ => Outcome.ok ["trecho"]
    llm := fun _ => Outcome.exn "APIError: quota" }

/-- Ready pipeline whose LLM call raises at answer time. -/
def stProntoFalha : RAGState := { stSessaoAnterior with rag_chain := some chainFalha }

/-- Ready chain whose LLM returns empty output. -/
def chainSaidaVazia : Chain :=
  { retrieve := fun _ => Outcome.ok ["A", "B"]
    llm := fun _ => Outcome.ok "" }

/-- Ready pipeline whose LLM returns empty output. -/
def stProntoVazio : RAGState := { stSessaoAnterior with rag_chain := some chainSaidaVazia }

theorem dictLookup_append (xs ys : List (String × ConfigVal)) (k : String) :
    dictLookup (xs ++ ys) k
      = match dictLookup xs k with
        | some v => some v
        | none => dictLookup ys k := by
  induction xs with
  | nil => simp [dictLookup]
  | cons p rest ih =>
    obtain ⟨k', v'⟩ := p
    by_cases h : k' = k <;> simp [dictLookup, h, ih]

theorem dictLookup_mapOverride (a b : List (String × ConfigVal)) (k : String) :
    dictLookup (a.map fun p =>
        match dictLookup b p.1 with
        | some v => (p.1, v)
        | none => p) k
      = match dictLookup a k with
        | none => none
        | some v =>
          match dictLookup b k with
          | some w => some w
          | none => some v := by
  induction a with
  | nil => simp [dictLookup]
  | cons p rest ih =>
    obtain ⟨k', v'⟩ := p
    by_cases h : k' = k
    · subst h
      cases hb : dictLookup b k' <;> simp [dictLookup, hb]
    · cases hb : dictLookup b k' <;> simp [dictLookup, h, ih, hb]

theorem dictLookup_filter_of_none (a b : List (String × ConfigVal)) (k : String)
    (h : dictLookup a k = none) :
    dictLookup (b.filter fun p => (dictLookup a p.1).isNone) k = dictLookup b k := by
  induction b with
  | nil => rfl
  | cons p rest ih =>
    obtain ⟨k', v'⟩ := p
    by_cases hk : k' = k
    · subst hk
      simp [List.filter_cons, dictLookup, h, ih]
    · cases ha : (dictLookup a k').isNone <;>
        simp [List.filter_cons, dictLookup, hk, ih, ha]

theorem dictMerge_lookup (a b : List (String × ConfigVal)) (k : String) :
    dictLookup (dictMerge a b) k
      = match dictLookup b k with
        | some w => some w
        | none => dictLookup a k := by
  unfold dictMerge
  rw [dictLookup_append, dictLookup_mapOverride]
  cases ha : dictLookup a k with
  | none =>
    rw [dictLookup_filter_of_none a b k ha]
    cases hb : dictLookup b k <;> simp [ha]
  | some v =>
    cases hb : dictLookup b k <;> simp [hb]

theorem pyIndex_default_embedding :
    pyIndex DEFAULT_RAG_CONFIG "embedding_config"
      = Outcome.ok (ConfigVal.vDict
          [("provider", ConfigVal.vStr "huggingface"),
           ("model_name", ConfigVal.vNone)]) := rfl

theorem pyGet_emb_provider :
    pyGet (ConfigVal.vDict
        [("provider", ConfigVal.vStr "huggingface"),
         ("model_name", ConfigVal.vNone)]) "provider" (ConfigVal.vStr "huggingface")
      = Outcome.ok (ConfigVal.vStr "huggingface") := rfl

theorem pyGet_emb_model_name :
    pyGet (ConfigVal.vDict
        [("provider", ConfigVal.vStr "huggingface"),
         ("model_name", ConfigVal.vNone)]) "model_name" ConfigVal.vNone
      = Outcome.ok ConfigVal.vNone := rfl

theorem get_embeddings_model_hf (env : SetupEnv) :
    get_embeddings_model (ConfigVal.vStr "huggingface") ConfigVal.vNone env
      = env.hfEmbed (ConfigVal.vStr "all-MiniLM-L6-v2") := rfl

theorem pyIndex_default_vs :
    pyIndex DEFAULT_RAG_CONFIG "vector_store_config"
      = Outcome.ok (ConfigVal.vDict
          [("mode", ConfigVal.vStr "in_memory"),
           ("collection_name_prefix", ConfigVal.vStr "rag_collection_")]) := rfl

theorem pyGet_vs_mode :
    pyGet (ConfigVal.vDict
        [("mode", ConfigVal.vStr "in_memory"),
         ("collection_name_prefix", ConfigVal.vStr "rag_collection_")]) "mode"
        (ConfigVal.vStr "in_memory")
      = Outcome.ok (ConfigVal.vStr "in_memory") := rfl

theorem isStr_in_memory_persistent :
    ConfigVal.isStr (ConfigVal.vStr "in_memory") "persistent" = false := rfl

theorem pyIndexD_vs_collPre :
    pyIndexD (ConfigVal.vDict
        [("mode", ConfigVal.vStr "in_memory"),
         ("collection_name_prefix", ConfigVal.vStr "rag_collection_")])
        "collection_name_prefix"
      = Outcome.ok (ConfigVal.vStr "rag_collection_") := rfl

theorem pyIndex_default_retr :
    pyIndex DEFAULT_RAG_CONFIG "retriever_config"
      = Outcome.ok (ConfigVal.vDict
          [("search_type", ConfigVal.vStr "similarity"),
           ("search_kwargs", ConfigVal.vDict [("k", ConfigVal.vInt 10)])]) := rfl

theorem pyIndexD_retr_search_type :
    pyIndexD (ConfigVal.vDict
        [("search_type", ConfigVal.vStr "similarity"),
         ("search_kwargs", ConfigVal.vDict [("k", ConfigVal.vInt 10)])]) "search_type"
      = Outcome.ok (ConfigVal.vStr "similarity") := rfl

theorem pyIndexD_retr_search_kwargs :
    pyIndexD (ConfigVal.vDict
        [("search_type", ConfigVal.vStr "similarity"),
         ("search_kwargs", ConfigVal.vDict [("k", ConfigVal.vInt 10)])]) "search_kwargs"
      = Outcome.ok (ConfigVal.vDict [("k", ConfigVal.vInt 10)]) := rfl

theorem pyIndex_default_llm :
    pyIndex DEFAULT_RAG_CONFIG "llm_config"
      = Outcome.ok (ConfigVal.vDict
          [("provider", ConfigVal.vStr "google"),
           ("model_name", ConfigVal.vStr "gemini-1.5-flash-latest"),
           ("temperature", ConfigVal.vFloat 3 10)]) := rfl

theorem pyIndexD_llm_provider :
    pyIndexD (ConfigVal.vDict
        [("provider", ConfigVal.vStr "google"),
         ("model_name", ConfigVal.vStr "gemini-1.5-flash-latest"),
         ("temperature", ConfigVal.vFloat 3 10)]) "provider"
      = Outcome.ok (ConfigVal.vStr "google") := rfl

theorem pyIndexD_llm_model_name :
    pyIndexD (ConfigVal.vDict
        [("provider", ConfigVal.vStr "google"),
         ("model_name", ConfigVal.vStr "gemini-1.5-flash-latest"),
         ("temperature", ConfigVal.vFloat 3 10)]) "model_name"
      = Outcome.ok (ConfigVal.vStr "gemini-1.5-flash-latest") := rfl

theorem pyIndexD_llm_temperature :
    pyIndexD (ConfigVal.vDict
        [("provider", ConfigVal.vStr "google"),
         ("model_name", ConfigVal.vStr "gemini-1.5-flash-latest"),
         ("temperature", ConfigVal.vFloat 3 10)]) "temperature"
      = Outcome.ok (ConfigVal.vFloat 3 10) := rfl

theorem get_llm_google_eq (env : SetupEnv) :
    get_llm (ConfigVal.vStr "google") (ConfigVal.vStr "gemini-1.5-flash-latest")
        (ConfigVal.vFloat 3 10) env
      = match env.googleApiKey with
        | none => Outcome.exn msgSemChaveGoogle
        | some key =>
          if key = "" then Outcome.exn msgSemChaveGoogle
          else env.googleLLM (ConfigVal.vStr "gemini-1.5-flash-latest")
                 (ConfigVal.vFloat 3 10) := rfl

theorem splitter_init_default : splitter_init 1000 100 = Outcome.ok () := rfl

theorem setup_char_semChunks (st : RAGState) (path : String) (env : SetupEnv)
    (chroma : ChromaSystem)
    (h : load_and_chunk_pdf env.pdfEnv 1000 100 = []) :
    setup_for_pdf st path env chroma
      = { state := { st with rag_chain := none }, system := chroma
          result := Outcome.ok false } := by
  simp [setup_for_pdf, h]

theorem setup_char_sucesso (st : RAGState) (path : String) (env : SetupEnv)
    (p : String) (ps : List String) (ch : Chunk) (chs : List Chunk)
    (m : EmbModel) (r : Retr) (key : String) (l : LLM) (chroma : ChromaSystem)
    (hconf : st.config = DEFAULT_RAG_CONFIG)
    (hload : env.pdfEnv.loadResult = Outcome.ok (p :: ps))
    (hsplit : env.pdfEnv.splitResult (p :: ps) = Outcome.ok (ch :: chs))
    (hemb : env.hfEmbed (ConfigVal.vStr "all-MiniLM-L6-v2") = Outcome.ok m)
    (hchroma : env.chromaCtor = Outcome.ok ())
    (hadd : env.addDocuments = Outcome.ok ())
    (hretr : env.asRetriever = Outcome.ok r)
    (hkey : env.googleApiKey = some key) (hk : ¬key = "")
    (hllm : env.googleLLM (ConfigVal.vStr "gemini-1.5-flash-latest")
        (ConfigVal.vFloat 3 10) = Outcome.ok l) :
    setup_for_pdf st path env chroma
      = { state :=
            { st with
              embeddings_model := some m
              vector_db := some
                { collection :=
                    "rag_collection_" ++ sanitize_name (splitext_root (os_path_basename path)) }
              retriever := some r
              llm := some l
              rag_chain := some { retrieve := env.chainRetrieve, llm := env.chainLLM } }
          system :=
            sysAppend
              (match sysLookup chroma
                  ("rag_collection_" ++ sanitize_name (splitext_root (os_path_basename path))) with
               | some _ => chroma
               | none =>
                 chroma ++
                   [("rag_collection_" ++ sanitize_name (splitext_root (os_path_basename path)), [])])
              ("rag_collection_" ++ sanitize_name (splitext_root (os_path_basename path)))
              (ch :: chs)
          result := Outcome.ok true } := by
  have hchunks : load_and_chunk_pdf env.pdfEnv 1000 100 = ch :: chs := by
    simp [load_and_chunk_pdf, hload, hsplit, splitter_init_default]
  simp [setup_for_pdf, hchunks, hconf, pyIndex_default_embedding, pyGet_emb_provider,
    pyGet_emb_model_name, get_embeddings_model_hf, hemb, pyIndex_default_vs,
    pyGet_vs_mode, isStr_in_memory_persistent, pyIndexD_vs_collPre,
    get_vector_store, hchroma, add_documents_to_store, hadd, pyIndex_default_retr,
    pyIndexD_retr_search_type, pyIndexD_retr_search_kwargs, hretr,
    pyIndex_default_llm, pyIndexD_llm_provider, pyIndexD_llm_model_name,
    pyIndexD_llm_temperature, get_llm_google_eq, hkey, hk, hllm, pyStr]

theorem setup_char_semChave (st : RAGState) (path : String) (env : SetupEnv)
    (p : String) (ps : List String) (ch : Chunk) (chs : List Chunk)
    (m : EmbModel) (r : Retr) (chroma : ChromaSystem)
    (hconf : st.config = DEFAULT_RAG_CONFIG)
    (hload : env.pdfEnv.loadResult = Outcome.ok (p :: ps))
    (hsplit : env.pdfEnv.splitResult (p :: ps) = Outcome.ok (ch :: chs))
    (hemb : env.hfEmbed (ConfigVal.vStr "all-MiniLM-L6-v2") = Outcome.ok m)
    (hchroma : env.chromaCtor = Outcome.ok ())
    (hadd : env.addDocuments = Outcome.ok ())
    (hretr : env.asRetriever = Outcome.ok r)
    (hkey : env.googleApiKey = none) :
    setup_for_pdf st path env chroma
      = { state :=
            { st with
              embeddings_model := some m
              vector_db := some
                { collection :=
                    "rag_collection_" ++ sanitize_name (splitext_root (os_path_basename path)) }
              retriever := some r }
          system :=
            sysAppend
              (match sysLookup chroma
                  ("rag_collection_" ++ sanitize_name (splitext_root (os_path_basename path))) with
               | some _ => chroma
               | none =>
                 chroma ++
                   [("rag_collection_" ++ sanitize_name (splitext_root (os_path_basename path)), [])])
              ("rag_collection_" ++ sanitize_name (splitext_root (os_path_basename path)))
              (ch :: chs)
          result := Outcome.exn msgSemChaveGoogle } := by
  have hchunks : load_and_chunk_pdf env.pdfEnv 1000 100 = ch :: chs := by
    simp [load_and_chunk_pdf, hload, hsplit, splitter_init_default]
  simp [setup_for_pdf, hchunks, hconf, pyIndex_default_embedding, pyGet_emb_provider,
    pyGet_emb_model_name, get_embeddings_model_hf, hemb, pyIndex_default_vs,
    pyGet_vs_mode, isStr_in_memory_persistent, pyIndexD_vs_collPre,
    get_vector_store, hchroma, add_documents_to_store, hadd, pyIndex_default_retr,
    pyIndexD_retr_search_type, pyIndexD_retr_search_kwargs, hretr,
    pyIndex_default_llm, pyIndexD_llm_provider, pyIndexD_llm_model_name,
    pyIndexD_llm_temperature, get_llm_google_eq, hkey, pyStr]

/-- Claim C1: ask before any successful setup (rag_chain is None) returns None
(the NotReady condition) without invoking the language model or any other
provider (no retriever and no LLM call is made) and without touching the
state; moreover a freshly constructed RAGPipeline always starts with
rag_chain = None. -/
theorem ask_sem_chain_retorna_none
    (cfg : Option (List (String × ConfigVal))) (st : RAGState) (q : String) :
    (RAGPipeline_init cfg).rag_chain = none ∧
    (st.rag_chain = none →
      ask st q
        = { state := st, answer := none, retriever_calls := [], llm_calls := [] }) := by
  refine ⟨rfl, fun h => ?_⟩
  simp [ask, h]

/-- Witness for ask_sem_chain_retorna_none at a fresh default pipeline. -/
theorem ask_sem_chain_retorna_none_witness :
    stDefault.rag_chain = none ∧
    ask stDefault "Olá"
      = { state := stDefault, answer := none, retriever_calls := [], llm_calls := [] } :=
  ⟨rfl, (ask_sem_chain_retorna_none none stDefault "Olá").2 rfl⟩

/-- Claim C5: when the pipeline is READY (rag_chain set) and invoking the chain
raises (retrieval, embedding or generation fault), ask returns the fixed
apology string and leaves the whole session state — including rag_chain and
the populated vector store — unchanged, so the question can be retried. -/
theorem ask_falha_apologia_estado_intacto
    (st : RAGState) (c : Chain) (q m : String)
    (hc : st.rag_chain = some c) (hq : ¬q = "")
    (hout : (chain_invoke c q).output = Outcome.exn m) :
    ask st q
      = { state := st, answer := some msgApology,
          retriever_calls := (chain_invoke c q).retriever_calls,
          llm_calls := (chain_invoke c q).llm_calls } := by
  simp [ask, hc, hq, hout]

/-- Witness for ask_falha_apologia_estado_intacto on a READY pipeline whose LLM
call raises. -/
theorem ask_falha_apologia_estado_intacto_witness :
    stProntoFalha.rag_chain = some chainFalha ∧
    ¬("Qual é o nome?" = "") ∧
    (chain_invoke chainFalha "Qual é o nome?").output = Outcome.exn "APIError: quota" ∧
    ask stProntoFalha "Qual é o nome?"
      = { state := stProntoFalha, answer := some msgApology,
          retriever_calls := (chain_invoke chainFalha "Qual é o nome?").retriever_calls,
          llm_calls := (chain_invoke chainFalha "Qual é o nome?").llm_calls } :=
  ⟨rfl, by decide, rfl,
    ask_falha_apologia_estado_intacto stProntoFalha chainFalha "Qual é o nome?"
      "APIError: quota" rfl (by decide) rfl⟩

/-- Claim C6 (amended): on a READY pipeline, ask joins the retrieved chunk
texts with the separator in retrieval rank order, substitutes context and
question into the fixed two-slot template, sends exactly that prompt to the
LLM and returns the model output verbatim — in every case, including empty
output; ask itself substitutes no fallback string. -/
theorem ask_contexto_rank_prompt_verbatim
    (st : RAGState) (c : Chain) (q : String) (docs : List String) (s : String)
    (hc : st.rag_chain = some c) (hq : ¬q = "")
    (hret : c.retrieve q = Outcome.ok docs)
    (hllm : c.llm (promptFormat (format_docs docs) q) = Outcome.ok s) :
    ask st q
      = { state := st, answer := some s,
          retriever_calls := [q],
          llm_calls := [promptFormat (format_docs docs) q] } := by
  simp [ask, hc, hq, chain_invoke, hret, hllm]

/-- Witness for ask_contexto_rank_prompt_verbatim on a READY pipeline. -/
theorem ask_contexto_rank_prompt_verbatim_witness :
    stSessaoAnterior.rag_chain = some chainAntiga ∧
    ¬("Pergunta?" = "") ∧
    chainAntiga.retrieve "Pergunta?" = Outcome.ok ["antigo"] ∧
    chainAntiga.llm (promptFormat (format_docs ["antigo"]) "Pergunta?")
      = Outcome.ok "resposta antiga" ∧
    ask stSessaoAnterior "Pergunta?"
      = { state := stSessaoAnterior, answer := some "resposta antiga",
          retriever_calls := ["Pergunta?"],
          llm_calls := [promptFormat (format_docs ["antigo"]) "Pergunta?"] } :=
  ⟨rfl, by decide, rfl, rfl,
    ask_contexto_rank_prompt_verbatim stSessaoAnterior chainAntiga "Pergunta?"
      ["antigo"] "resposta antiga" rfl (by decide) rfl rfl⟩

/-- Counterexample to claim C6 as stated: when the model returns empty output,
ask returns the empty string verbatim (answer = some ""), not a fixed fallback
string; the fallback "Desculpe, não consegui obter uma resposta." is applied
only by the UI layer in app.py, outside ask. -/
theorem ask_saida_vazia_cex :
    (ask stProntoVazio "Qual é a capital?").answer = some "" ∧
    ¬((ask stProntoVazio "Qual é a capital?").answer
        = some "Desculpe, não consegui obter uma resposta.") := by
  refine ⟨rfl, ?_⟩
  decide

/-- Claim C7 (amended): load_and_chunk_pdf performs no parameter validation.
With overlap > chunk_size the PDF is loaded first and the third-party splitter
constructor raises, which the catch-all handler turns into a normal empty-list
return (indistinguishable from a document with no text) — never a validation
error; with overlap <= chunk_size (including the degenerate overlap =
chunk_size) the parameters are accepted and splitting proceeds. -/
theorem chunk_sem_validacao (env : PdfEnv) (cs co : Int) (pages : List String) :
    (cs < co → load_and_chunk_pdf env cs co = []) ∧
    (env.loadResult = Outcome.ok pages → ¬pages.isEmpty → ¬cs < co →
      load_and_chunk_pdf env cs co
        = match env.splitResult pages with
          | Outcome.ok chunks => chunks
          | Outcome.exn _ => []) := by
  constructor
  · intro hco
    unfold load_and_chunk_pdf
    cases h : env.loadResult with
    | exn m => rfl
    | ok documents =>
      by_cases hd : documents.isEmpty
      · simp [hd]
      · simp [hd, splitter_init, hco]
  · intro hload hpages hco
    simp [load_and_chunk_pdf, hload, hpages, splitter_init, hco]
    cases env.splitResult pages <;> rfl

/-- Witness for chunk_sem_validacao: overlap 200 > chunk_size 100 yields [],
and the chunker defaults 1000/100 proceed to split. -/
theorem chunk_sem_validacao_witness :
    ((100:Int) < 200 ∧ load_and_chunk_pdf pdfEnvOk 100 200 = []) ∧
    (pdfEnvOk.loadResult = Outcome.ok ["texto do pdf"] ∧
      ¬(["texto do pdf"] : List String).isEmpty ∧ ¬(1000:Int) < 100 ∧
      load_and_chunk_pdf pdfEnvOk 1000 100
        = match pdfEnvOk.splitResult ["texto do pdf"] with
          | Outcome.ok chunks => chunks
          | Outcome.exn _ => []) :=
  ⟨⟨by decide, (chunk_sem_validacao pdfEnvOk 100 200 ["texto do pdf"]).1 (by decide)⟩,
   ⟨rfl, by decide, by decide,
     (chunk_sem_validacao pdfEnvOk 1000 100 ["texto do pdf"]).2 rfl (by decide) (by decide)⟩⟩

/-- Counterexample to claim C7 as stated: with chunk_size 100 and overlap 200
(violating overlap < chunk_size) the call is not rejected with a validation
error — it returns an ordinary empty list, the same value an empty document
produces, and the PDF loader has already run by the time the splitter
parameters are even seen. -/
theorem chunk_params_invalidos_cex :
    load_and_chunk_pdf pdfEnvOk 100 200 = [] ∧
    load_and_chunk_pdf pdfEnvSemTexto 1000 100 = [] := ⟨rfl, rfl⟩

/-- Claim C8: a document with no extractable text makes load_and_chunk_pdf
return an empty list (a normal return, not a raise — the function body never
lets an exception escape), and setup_for_pdf treats the empty chunk list as
indexing failure: it returns False and clears rag_chain. -/
theorem chunker_vazio_caller_false
    (pe : PdfEnv) (st : RAGState) (path : String) (env : SetupEnv)
    (chroma : ChromaSystem) :
    (pe.loadResult = Outcome.ok [] → load_and_chunk_pdf pe 1000 100 = []) ∧
    (env.pdfEnv.loadResult = Outcome.ok [] →
      setup_for_pdf st path env chroma
        = { state := { st with rag_chain := none }, system := chroma
            result := Outcome.ok false }) := by
  constructor
  · intro h; simp [load_and_chunk_pdf, h]
  · intro h
    exact setup_char_semChunks st path env chroma (by simp [load_and_chunk_pdf, h])

/-- Witness for chunker_vazio_caller_false on a text-free document and a prior
READY session. -/
theorem chunker_vazio_caller_false_witness :
    pdfEnvSemTexto.loadResult = Outcome.ok [] ∧
    load_and_chunk_pdf pdfEnvSemTexto 1000 100 = [] ∧
    envSemTexto.pdfEnv.loadResult = Outcome.ok [] ∧
    setup_for_pdf stSessaoAnterior "doc.pdf" envSemTexto sysAntigo
      = { state := { stSessaoAnterior with rag_chain := none }, system := sysAntigo
          result := Outcome.ok false } :=
  ⟨rfl,
   (chunker_vazio_caller_false pdfEnvSemTexto stSessaoAnterior "doc.pdf"
     envSemTexto sysAntigo).1 rfl,
   rfl,
   (chunker_vazio_caller_false pdfEnvSemTexto stSessaoAnterior "doc.pdf"
     envSemTexto sysAntigo).2 rfl⟩

/-- Claim C9: core/vector_store.py has no module-level import of os, so every
call to get_vector_store with a non-None persist_directory raises NameError at
the os.path.exists check — before any directory creation is attempted — and
the intended silent in-memory fallback (the except-OSError branch) is
unreachable. -/
theorem get_vector_store_persistente_nameerror
    (e : EmbModel) (c dir : String) (env : SetupEnv) (chroma : ChromaSystem) :
    get_vector_store e c (some dir) env chroma
      = (Outcome.exn msgNameErrorOs, chroma) := rfl

/-- Claim C10: RAGPipeline.__init__ merges the user config into the defaults
shallowly at the top level: a supplied top-level section entirely replaces the
default section (nested default keys are not inherited, as the concrete
llm_config example shows), and sections not supplied keep their full
defaults. -/
theorem config_merge_raso (user : List (String × ConfigVal)) (k : String) :
    dictLookup (RAGPipeline_init (some user)).config k
      = (match dictLookup user k with
         | some v => some v
         | none => dictLookup DEFAULT_RAG_CONFIG k) ∧
    dictLookup (RAGPipeline_init (some
        [("llm_config",
          ConfigVal.vDict [("provider", ConfigVal.vStr "ollama")])])).config
        "llm_config"
      = some (ConfigVal.vDict [("provider", ConfigVal.vStr "ollama")]) := by
  refine ⟨?_, rfl⟩
  exact dictMerge_lookup DEFAULT_RAG_CONFIG user k

/-- Claim C2 (amended): ANSWER (ask) never lets an exception escape — it always
returns a value, None exactly when no chain is configured, a string otherwise
(provider faults become the fixed apology string).  INDEX (setup_for_pdf) does
not share this property: it has no exception handler, so with the default
configuration a missing GOOGLE_API_KEY makes the ValueError from get_llm
escape across its boundary (and unknown provider tags escape similarly); only
the empty-chunks failure is reported as a False return. -/
theorem ask_total_setup_propaga
    (st st2 : RAGState) (q path : String) (env : SetupEnv)
    (p : String) (ps : List String) (ch : Chunk) (chs : List Chunk)
    (m : EmbModel) (r : Retr) (chroma : ChromaSystem) :
    ((ask st q).answer = none ↔ st.rag_chain = none) ∧
    (st2.config = DEFAULT_RAG_CONFIG →
      env.pdfEnv.loadResult = Outcome.ok (p :: ps) →
      env.pdfEnv.splitResult (p :: ps) = Outcome.ok (ch :: chs) →
      env.hfEmbed (ConfigVal.vStr "all-MiniLM-L6-v2") = Outcome.ok m →
      env.chromaCtor = Outcome.ok () →
      env.addDocuments = Outcome.ok () →
      env.asRetriever = Outcome.ok r →
      env.googleApiKey = none →
      (setup_for_pdf st2 path env chroma).result = Outcome.exn msgSemChaveGoogle) := by
  constructor
  · cases hc : st.rag_chain with
    | none => simp [ask, hc]
    | some c =>
      by_cases hq : q = ""
      · simp [ask, hc, hq]
      · cases ho : (chain_invoke c q).output <;> simp [ask, hc, hq, ho]
  · intro hconf hload hsplit hemb hchroma hadd hretr hkey
    rw [setup_char_semChave st2 path env p ps ch chs m r chroma hconf hload hsplit
      hemb hchroma hadd hretr hkey]

/-- Witness for ask_total_setup_propaga: a fresh pipeline answers None, and a
default-config setup with no GOOGLE_API_KEY raises across the INDEX boundary. -/
theorem ask_total_setup_propaga_witness :
    ((ask stDefault "Oi").answer = none ↔ stDefault.rag_chain = none) ∧
    (setup_for_pdf stSessaoAnterior "doc.pdf" envSemChave sysAntigo).result
      = Outcome.exn msgSemChaveGoogle :=
  ⟨(ask_total_setup_propaga stDefault stSessaoAnterior "Oi" "doc.pdf" envSemChave
      "texto do pdf" [] chunkExemplo [] { id := 1 } { id := 2 } sysAntigo).1,
   (ask_total_setup_propaga stDefault stSessaoAnterior "Oi" "doc.pdf" envSemChave
      "texto do pdf" [] chunkExemplo [] { id := 1 } { id := 2 } sysAntigo).2
     rfl rfl rfl rfl rfl rfl rfl rfl⟩

/-- Counterexample to claim C2 as stated: with an unknown embedding provider
tag ("openai") in the configuration, setup_for_pdf lets the ValueError from
get_embeddings_model escape across its boundary instead of returning a
success/failure result. -/
theorem setup_propaga_excecao_cex :
    (setup_for_pdf stEmbDesconhecido "documento.pdf" envOk []).result
      = Outcome.exn (msgEmbDesconhecido "openai") := rfl

/-- Claim C3 (amended): setup_for_pdf failure handling is split.  When chunking
yields no chunks it returns False and clears only rag_chain, retaining a prior
session's embeddings_model, vector_db and retriever.  When a later step fails
(here: the LLM load with no GOOGLE_API_KEY) it raises instead of returning a
failure boolean and leaves the fields already assigned by the completed steps
(new embeddings_model, freshly populated vector_db, new retriever) in place
together with a stale rag_chain from any prior session — the session is never
reset to an EMPTY state. -/
theorem setup_falha_caracterizacao
    (st : RAGState) (path : String) (env : SetupEnv)
    (p : String) (ps : List String) (ch : Chunk) (chs : List Chunk)
    (m : EmbModel) (r : Retr) (chroma : ChromaSystem) :
    (load_and_chunk_pdf env.pdfEnv 1000 100 = [] →
      setup_for_pdf st path env chroma
        = { state := { st with rag_chain := none }, system := chroma
            result := Outcome.ok false }) ∧
    (st.config = DEFAULT_RAG_CONFIG →
      env.pdfEnv.loadResult = Outcome.ok (p :: ps) →
      env.pdfEnv.splitResult (p :: ps) = Outcome.ok (ch :: chs) →
      env.hfEmbed (ConfigVal.vStr "all-MiniLM-L6-v2") = Outcome.ok m →
      env.chromaCtor = Outcome.ok () →
      env.addDocuments = Outcome.ok () →
      env.asRetriever = Outcome.ok r →
      env.googleApiKey = none →
      setup_for_pdf st path env chroma
        = { state :=
              { st with
                embeddings_model := some m
                vector_db := some
                  { collection :=
                      "rag_collection_" ++ sanitize_name (splitext_root (os_path_basename path)) }
                retriever := some r }
            system :=
              sysAppend
                (match sysLookup chroma
                    ("rag_collection_" ++ sanitize_name (splitext_root (os_path_basename path))) with
                 | some _ => chroma
                 | none =>
                   chroma ++
                     [("rag_collection_" ++ sanitize_name (splitext_root (os_path_basename path)), [])])
                ("rag_collection_" ++ sanitize_name (splitext_root (os_path_basename path)))
                (ch :: chs)
            result := Outcome.exn msgSemChaveGoogle }) :=
  ⟨setup_char_semChunks st path env chroma,
   fun hconf hload hsplit hemb hchroma hadd hretr hkey =>
     setup_char_semChave st path env p ps ch chs m r chroma hconf hload hsplit
       hemb hchroma hadd hretr hkey⟩

/-- Witness for setup_falha_caracterizacao: both failure shapes at concrete
inputs, starting from a prior READY session whose collection is still in the
shared system. -/
theorem setup_falha_caracterizacao_witness :
    (load_and_chunk_pdf envSemTexto.pdfEnv 1000 100 = [] ∧
      setup_for_pdf stSessaoAnterior "doc.pdf" envSemTexto sysAntigo
        = { state := { stSessaoAnterior with rag_chain := none }, system := sysAntigo
            result := Outcome.ok false }) ∧
    (stSessaoAnterior.config = DEFAULT_RAG_CONFIG ∧
      setup_for_pdf stSessaoAnterior "doc.pdf" envSemChave sysAntigo
        = { state :=
              { stSessaoAnterior with
                embeddings_model := some { id := 1 }
                vector_db := some
                  { collection :=
                      "rag_collection_" ++ sanitize_name (splitext_root (os_path_basename "doc.pdf")) }
                retriever := some { id := 2 } }
            system :=
              [("rag_collection_antigo", [{ page_content := "antigo" }]),
               ("rag_collection_doc", [chunkExemplo])]
            result := Outcome.exn msgSemChaveGoogle }) :=
  ⟨⟨rfl,
    (setup_falha_caracterizacao stSessaoAnterior "doc.pdf" envSemTexto
      "texto do pdf" [] chunkExemplo [] { id := 1 } { id := 2 } sysAntigo).1 rfl⟩,
   ⟨rfl,
    (setup_falha_caracterizacao stSessaoAnterior "doc.pdf" envSemChave
      "texto do pdf" [] chunkExemplo [] { id := 1 } { id := 2 } sysAntigo).2
      rfl rfl rfl rfl rfl rfl rfl rfl⟩⟩

/-- Counterexample to claim C3 as stated: with a prior READY session and a
missing GOOGLE_API_KEY, setup_for_pdf neither returns a failure boolean nor
leaves the session EMPTY — it raises, keeps the stale rag_chain of the prior
session, and retains the new partially constructed state (embeddings model,
vector-store handle whose collection is populated in the shared system,
retriever) from the failed attempt; the prior collection is not torn down
either. -/
theorem setup_falha_retem_estado_cex :
    (setup_for_pdf stSessaoAnterior "doc.pdf" envSemChave sysAntigo).result
      = Outcome.exn msgSemChaveGoogle ∧
    (setup_for_pdf stSessaoAnterior "doc.pdf" envSemChave sysAntigo).state.rag_chain
      = some chainAntiga ∧
    (setup_for_pdf stSessaoAnterior "doc.pdf" envSemChave sysAntigo).state.embeddings_model
      = some { id := 1 } ∧
    (setup_for_pdf stSessaoAnterior "doc.pdf" envSemChave sysAntigo).state.vector_db
      = some { collection := "rag_collection_doc" } ∧
    (setup_for_pdf stSessaoAnterior "doc.pdf" envSemChave sysAntigo).state.retriever
      = some { id := 2 } ∧
    (setup_for_pdf stSessaoAnterior "doc.pdf" envSemChave sysAntigo).system
      = [("rag_collection_antigo", [{ page_content := "antigo" }]),
         ("rag_collection_doc", [chunkExemplo])] :=
  ⟨rfl, rfl, rfl, rfl, rfl, rfl⟩

theorem sysLookup_append_self (sys : ChromaSystem) (cn : String) (ds : List Chunk)
    (h : sysLookup sys cn = none) :
    sysLookup (sys ++ [(cn, ds)]) cn = some ds := by
  induction sys with
  | nil => simp [sysLookup]
  | cons q rest ih =>
    obtain ⟨n, d⟩ := q
    by_cases hn : n = cn
    · subst hn; simp [sysLookup] at h
    · simp [sysLookup, hn] at h ⊢
      exact ih h

theorem sysAppend_append_self (sys : ChromaSystem) (cn : String)
    (ds docs : List Chunk) (h : sysLookup sys cn = none) :
    sysAppend (sys ++ [(cn, ds)]) cn docs = sys ++ [(cn, ds ++ docs)] := by
  induction sys with
  | nil => simp [sysAppend]
  | cons q rest ih =>
    obtain ⟨n, d⟩ := q
    by_cases hn : n = cn
    · subst hn; simp [sysLookup] at h
    · simp [sysLookup, hn] at h
      simp [sysAppend, hn, ih h]

/-- Counterexample to claim C4 as stated: nothing is ever cleared, in either
mode.  In-memory, every non-persistent Chroma client shares the one
process-wide ephemeral chromadb system and the constructor reattaches to the
existing same-name collection, so running INDEX twice on the same document in
one process leaves the collection holding TWO copies of the chunks — not the
chunk count of one indexing pass.  In persistent mode setup_for_pdf raises
AttributeError (it calls the undefined method
_get_pdf_specific_persist_directory_path) before any store is even created. -/
theorem reindex_nao_limpa_cex :
    (setup_for_pdf (setup_for_pdf stSessaoAnterior "doc.pdf" envOk []).state
        "doc.pdf" envOk
        (setup_for_pdf stSessaoAnterior "doc.pdf" envOk []).system).result
      = Outcome.ok true ∧
    sysLookup
        (setup_for_pdf (setup_for_pdf stSessaoAnterior "doc.pdf" envOk []).state
          "doc.pdf" envOk
          (setup_for_pdf stSessaoAnterior "doc.pdf" envOk []).system).system
        "rag_collection_doc"
      = some [chunkExemplo, chunkExemplo] ∧
    (setup_for_pdf stModoPersistente "doc.pdf" envOk []).result
      = Outcome.exn msgAttrPersistDir ∧
    (setup_for_pdf stModoPersistente "doc.pdf" envOk []).state.vector_db = none :=
  ⟨rfl, rfl, rfl, rfl⟩

/-- Claim C4 (amended): re-indexing the same document twice does not leave one
pass's chunk count and clears nothing.  With the default (in-memory)
configuration, all non-persistent Chroma clients share the process-wide
ephemeral chromadb system and get_or_create_collection reattaches to the
existing same-name collection, so the second INDEX run appends a duplicate
copy: starting from a system without the document's collection, two runs leave
the collection holding exactly twice the chunks of one pass.
add_documents_to_store itself only ever appends (second conjunct), and the
persistent path — whose commented-out cleanup never runs — raises
AttributeError before reaching any store (see the counterexample). -/
theorem reindex_acumula_duplicatas
    (st : RAGState) (path : String) (env : SetupEnv)
    (p : String) (ps : List String) (ch : Chunk) (chs : List Chunk)
    (m : EmbModel) (r : Retr) (key : String) (l : LLM) (chroma : ChromaSystem)
    (vdb : VDB) (documents : List Chunk) (b : Bool) (env2 : SetupEnv)
    (chroma2 : ChromaSystem) :
    (st.config = DEFAULT_RAG_CONFIG →
      env.pdfEnv.loadResult = Outcome.ok (p :: ps) →
      env.pdfEnv.splitResult (p :: ps) = Outcome.ok (ch :: chs) →
      env.hfEmbed (ConfigVal.vStr "all-MiniLM-L6-v2") = Outcome.ok m →
      env.chromaCtor = Outcome.ok () →
      env.addDocuments = Outcome.ok () →
      env.asRetriever = Outcome.ok r →
      env.googleApiKey = some key → ¬key = "" →
      env.googleLLM (ConfigVal.vStr "gemini-1.5-flash-latest")
          (ConfigVal.vFloat 3 10) = Outcome.ok l →
      sysLookup chroma
          ("rag_collection_" ++ sanitize_name (splitext_root (os_path_basename path)))
        = none →
      ((setup_for_pdf (setup_for_pdf st path env chroma).state path env
          (setup_for_pdf st path env chroma).system).result = Outcome.ok true ∧
       sysLookup
          (setup_for_pdf (setup_for_pdf st path env chroma).state path env
            (setup_for_pdf st path env chroma).system).system
          ("rag_collection_" ++ sanitize_name (splitext_root (os_path_basename path)))
         = some ((ch :: chs) ++ (ch :: chs)))) ∧
    (¬documents.isEmpty → env2.addDocuments = Outcome.ok () →
      add_documents_to_store vdb documents b env2 chroma2
        = (Outcome.ok (), sysAppend chroma2 vdb.collection documents)) := by
  constructor
  · intro hconf hload hsplit hemb hchroma hadd hretr hkey hk hllm hsys
    have h1 := setup_char_sucesso st path env p ps ch chs m r key l chroma hconf
      hload hsplit hemb hchroma hadd hretr hkey hk hllm
    simp only [hsys] at h1
    rw [sysAppend_append_self chroma _ [] (ch :: chs) hsys] at h1
    have hconf2 : (setup_for_pdf st path env chroma).state.config
        = DEFAULT_RAG_CONFIG := by
      rw [h1]; exact hconf
    have hsys2 : sysLookup (setup_for_pdf st path env chroma).system
        ("rag_collection_" ++ sanitize_name (splitext_root (os_path_basename path)))
        = some ([] ++ (ch :: chs)) := by
      rw [h1]
      exact sysLookup_append_self chroma _ ([] ++ (ch :: chs)) hsys
    have h2 := setup_char_sucesso (setup_for_pdf st path env chroma).state path env
      p ps ch chs m r key l (setup_for_pdf st path env chroma).system hconf2
      hload hsplit hemb hchroma hadd hretr hkey hk hllm
    simp only [hsys2] at h2
    rw [h2]
    refine ⟨rfl, ?_⟩
    simp only [h1]
    rw [sysAppend_append_self chroma _ ([] ++ (ch :: chs)) (ch :: chs) hsys]
    rw [sysLookup_append_self chroma _ (([] ++ (ch :: chs)) ++ (ch :: chs)) hsys]
    simp
  · intro hd hadd2
    simp [add_documents_to_store, hd, hadd2]

/-- Witness for reindex_acumula_duplicatas: indexing "doc.pdf" twice in a
process whose shared system only holds the prior session's collection leaves
two copies of the one-pass chunk list under the document's collection, and a
direct append on one collection shows add_documents_to_store never clears. -/
theorem reindex_acumula_duplicatas_witness :
    ((setup_for_pdf (setup_for_pdf stSessaoAnterior "doc.pdf" envOk sysAntigo).state
        "doc.pdf" envOk
        (setup_for_pdf stSessaoAnterior "doc.pdf" envOk sysAntigo).system).result
        = Outcome.ok true ∧
     sysLookup
        (setup_for_pdf (setup_for_pdf stSessaoAnterior "doc.pdf" envOk sysAntigo).state
          "doc.pdf" envOk
          (setup_for_pdf stSessaoAnterior "doc.pdf" envOk sysAntigo).system).system
        ("rag_collection_" ++ sanitize_name (splitext_root (os_path_basename "doc.pdf")))
        = some ([chunkExemplo] ++ [chunkExemplo])) ∧
    add_documents_to_store { collection := "c" } [chunkExemplo] true envOk
        [("c", [chunkExemplo])]
      = (Outcome.ok (), [("c", [chunkExemplo, chunkExemplo])]) :=
  ⟨(reindex_acumula_duplicatas stSessaoAnterior "doc.pdf" envOk
      "texto do pdf" [] chunkExemplo [] { id := 1 } { id := 2 } "chave" { id := 3 }
      sysAntigo { collection := "c" } [chunkExemplo] true envOk
      [("c", [chunkExemplo])]).1
      rfl rfl rfl rfl rfl rfl rfl rfl (by decide) rfl rfl,
   (reindex_acumula_duplicatas stSessaoAnterior "doc.pdf" envOk
      "texto do pdf" [] chunkExemplo [] { id := 1 } { id := 2 } "chave" { id := 3 }
      sysAntigo { collection := "c" } [chunkExemplo] true envOk
      [("c", [chunkExemplo])]).2
      (by decide) rfl⟩
